import Mathlib

/-!
Verification of the SU2 data-driven fluid model (`CDataDrivenFluid.cpp`) and
flamelet fluid model (`CFluidFlamelet.cpp`).

The C++ code is shallowly embedded over `ℚ`: `su2double` values become
rationals, `pow(x, -1)` becomes `x⁻¹` and `pow(x, -2)` becomes `(x ^ 2)⁻¹`
(total field operations; division by zero yields `0` in this model, where
IEEE arithmetic would yield an infinity or NaN — theorems about such edge
cases are stated on the zero divisor itself).  The manifold backends
(multilayer perceptron / lookup table) live outside the translated slice and
are modelled as black-box function records.
-/

/-- Black-box manifold queried by `CDataDrivenFluid::SetTDState_rhoe`: from
the controlling variables (density, static energy) it returns entropy and its
first and second partial derivatives.  The six components correspond to the
six outputs registered in `MapInputs_to_Outputs` (`s`, `dsde_rho`,
`dsdrho_e`, `d2sde2`, `d2sdedrho`, `d2sdrho2`). -/
structure Manifold where
  s : ℚ → ℚ → ℚ
  dsde_rho : ℚ → ℚ → ℚ
  dsdrho_e : ℚ → ℚ → ℚ
  d2sde2 : ℚ → ℚ → ℚ
  d2sdedrho : ℚ → ℚ → ℚ
  d2sdrho2 : ℚ → ℚ → ℚ

/-- The derived thermodynamic state written by
`CDataDrivenFluid::SetTDState_rhoe` (raw manifold outputs plus the derived
quantities of the fluid-model base class). -/
structure TDState where
  Density : ℚ
  StaticEnergy : ℚ
  Entropy : ℚ
  dsde_rho : ℚ
  dsdrho_e : ℚ
  d2sde2 : ℚ
  d2sdedrho : ℚ
  d2sdrho2 : ℚ
  SoundSpeed2 : ℚ
  Temperature : ℚ
  Pressure : ℚ
  dTde_rho : ℚ
  dTdrho_e : ℚ
  dPde_rho : ℚ
  dPdrho_e : ℚ
  Cp : ℚ
  Cv : ℚ
  Gamma : ℚ
  Gamma_Minus_One : ℚ
  Gas_Constant : ℚ
deriving DecidableEq

/-- `CDataDrivenFluid::SetTDState_rhoe` (CDataDrivenFluid.cpp:127-180): query
the manifold at `(rho, e)`, then compute speed of sound, temperature,
pressure and the secondary quantities with the exact algebraic grouping of
the source. -/
def SetTDState_rhoe (m : Manifold) (rho e : ℚ) : TDState :=
  let Entropy := m.s rho e
  let dsde_rho := m.dsde_rho rho e
  let dsdrho_e := m.dsdrho_e rho e
  let d2sde2 := m.d2sde2 rho e
  let d2sdedrho := m.d2sdedrho rho e
  let d2sdrho2 := m.d2sdrho2 rho e
  -- Compute speed of sound
  let blue_term := dsdrho_e * (2 - rho * dsde_rho⁻¹ * d2sdedrho) + rho * d2sdrho2
  let green_term := -dsde_rho⁻¹ * d2sde2 * dsdrho_e + d2sdedrho
  let SoundSpeed2 := -rho * dsde_rho⁻¹ * (blue_term - rho * green_term * (dsdrho_e / dsde_rho))
  -- Compute primary flow variables
  let Temperature := 1 / dsde_rho
  let Pressure := -rho ^ 2 * Temperature * dsdrho_e
  let Density := rho
  let StaticEnergy := e
  -- Compute secondary flow variables
  let dTde_rho := -(dsde_rho ^ 2)⁻¹ * d2sde2
  let dTdrho_e := (0 : ℚ)
  let dPde_rho := -rho ^ 2 * dTde_rho * dsdrho_e
  let dPdrho_e := -2 * rho * Temperature * dsdrho_e - rho ^ 2 * Temperature * d2sdrho2
  let Cp := (1 / dTde_rho) * (1 + (1 / Density) * dPde_rho)
  let Cv := 1 / dTde_rho
  let Gamma := Cp / Cv
  let Gamma_Minus_One := Gamma - 1
  let Gas_Constant := Cp - Cv
  { Density := Density, StaticEnergy := StaticEnergy, Entropy := Entropy,
    dsde_rho := dsde_rho, dsdrho_e := dsdrho_e, d2sde2 := d2sde2,
    d2sdedrho := d2sdedrho, d2sdrho2 := d2sdrho2,
    SoundSpeed2 := SoundSpeed2, Temperature := Temperature, Pressure := Pressure,
    dTde_rho := dTde_rho, dTdrho_e := dTdrho_e, dPde_rho := dPde_rho,
    dPdrho_e := dPdrho_e, Cp := Cp, Cv := Cv, Gamma := Gamma,
    Gamma_Minus_One := Gamma_Minus_One, Gas_Constant := Gas_Constant }

/-- Stub manifold returning the constants of the spec's concrete scenario:
`s = 1000`, `s_e = 0.002`, `s_ρ = -0.5`, all second derivatives zero. -/
def stubConst : Manifold :=
  { s := fun _ _ => 1000
    dsde_rho := fun _ _ => 1 / 500
    dsdrho_e := fun _ _ => -(1 / 2)
    d2sde2 := fun _ _ => 0
    d2sdedrho := fun _ _ => 0
    d2sdrho2 := fun _ _ => 0 }

/-- All-zero stub manifold: every output is the constant `0`.  Used as a
concrete manifold for which no Newton residual can ever fall inside its
tolerance band (with nonzero targets) and for which every Newton step
divides by a zero derivative. -/
def stub0 : Manifold :=
  { s := fun _ _ => 0
    dsde_rho := fun _ _ => 0
    dsdrho_e := fun _ _ => 0
    d2sde2 := fun _ _ => 0
    d2sdedrho := fun _ _ => 0
    d2sdrho2 := fun _ _ => 0 }

/-- Iterate of a two-variable Newton inversion loop: current `(rho, e)`
guess, iteration counter `Iter` and the `converged` flag. -/
structure NewtonIter where
  rho : ℚ
  e : ℚ
  iter : ℕ
  converged : Bool
deriving DecidableEq

/-- Iterate of a single-variable (density-fixed) Newton inversion loop. -/
structure NewtonIter1 where
  e : ℚ
  iter : ℕ
  converged : Bool
deriving DecidableEq

/-- Newton loop of `CDataDrivenFluid::SetTDState_PT`
(CDataDrivenFluid.cpp:201-226), written with explicit fuel
(`fuel = iter_max - Iter`; the source runs `while (!converged && Iter <
iter_max)` with `iter_max = 1000`). -/
def PTloop (m : Manifold) (relax P T : ℚ) : ℚ → ℚ → ℕ → ℕ → NewtonIter
  | rho, e, iter, 0 => ⟨rho, e, iter, false⟩
  | rho, e, iter, fuel + 1 =>
    let st := SetTDState_rhoe m rho e
    let delta_P := st.Pressure - P
    let delta_T := st.Temperature - T
    if |delta_P| < 10 ∧ |delta_T| < 1 then ⟨rho, e, iter + 1, true⟩
    else
      let determinant := st.dPdrho_e * st.dTde_rho - st.dPde_rho * st.dTdrho_e
      let delta_rho := (st.dTde_rho * delta_P - st.dPde_rho * delta_T) / determinant
      let delta_e := (-st.dTdrho_e * delta_P + st.dPdrho_e * delta_T) / determinant
      PTloop m relax P T (rho - relax * delta_rho) (e - relax * delta_e) (iter + 1) fuel

/-- `CDataDrivenFluid::SetTDState_PT` (CDataDrivenFluid.cpp:182-230): run the
pressure-temperature Newton loop from the configured initial guess, then
evaluate the forward state at the final `(rho, e)`. -/
def SetTDState_PT (m : Manifold) (relax rho_start e_start P T : ℚ) : TDState :=
  let r := PTloop m relax P T rho_start e_start 0 1000
  SetTDState_rhoe m r.rho r.e

/-- Newton loop of `CDataDrivenFluid::SetEnergy_Prho`
(CDataDrivenFluid.cpp:254-274): single-variable iteration on energy with
density fixed. -/
def Prholoop (m : Manifold) (relax P rho : ℚ) : ℚ → ℕ → ℕ → NewtonIter1
  | e, iter, 0 => ⟨e, iter, false⟩
  | e, iter, fuel + 1 =>
    let st := SetTDState_rhoe m rho e
    let delta_P := st.Pressure - P
    if |delta_P| < 10 then ⟨e, iter + 1, true⟩
    else
      let delta_e := delta_P / st.dPde_rho
      Prholoop m relax P rho (e - relax * delta_e) (iter + 1) fuel

/-- `CDataDrivenFluid::SetEnergy_Prho` (CDataDrivenFluid.cpp:241-278):
returns the final energy of the pressure-density Newton loop. -/
def SetEnergy_Prho (m : Manifold) (relax e_start P rho : ℚ) : ℚ :=
  (Prholoop m relax P rho e_start 0 1000).e

/-- `CDataDrivenFluid::SetTDState_Prho` (CDataDrivenFluid.cpp:232-239):
compute the energy from `(P, rho)` and evaluate the forward state there. -/
def SetTDState_Prho (m : Manifold) (relax e_start P rho : ℚ) : TDState :=
  SetTDState_rhoe m rho (SetEnergy_Prho m relax e_start P rho)

/-- Newton loop of `CDataDrivenFluid::SetTDState_rhoT`
(CDataDrivenFluid.cpp:295-315): single-variable iteration on energy with
density fixed, targeting temperature. -/
def rhoTloop (m : Manifold) (relax T rho : ℚ) : ℚ → ℕ → ℕ → NewtonIter1
  | e, iter, 0 => ⟨e, iter, false⟩
  | e, iter, fuel + 1 =>
    let st := SetTDState_rhoe m rho e
    let delta_T := st.Temperature - T
    if |delta_T| < 1 then ⟨e, iter + 1, true⟩
    else
      let delta_e := delta_T / st.dTde_rho
      rhoTloop m relax T rho (e - relax * delta_e) (iter + 1) fuel

/-- `CDataDrivenFluid::SetTDState_rhoT` (CDataDrivenFluid.cpp:280-319). -/
def SetTDState_rhoT (m : Manifold) (relax e_start rho T : ℚ) : TDState :=
  let r := rhoTloop m relax T rho e_start 0 1000
  SetTDState_rhoe m rho r.e

/-- Newton loop of `CDataDrivenFluid::SetTDState_hs`
(CDataDrivenFluid.cpp:341-368): two-variable iteration targeting enthalpy
`h = e + P/rho` and entropy. -/
def hsloop (m : Manifold) (relax h s : ℚ) : ℚ → ℚ → ℕ → ℕ → NewtonIter
  | rho, e, iter, 0 => ⟨rho, e, iter, false⟩
  | rho, e, iter, fuel + 1 =>
    let st := SetTDState_rhoe m rho e
    let Enthalpy := e + st.Pressure / rho
    let delta_h := Enthalpy - h
    let delta_s := st.Entropy - s
    if |delta_h| < 10 ∧ |delta_s| < 1 then ⟨rho, e, iter + 1, true⟩
    else
      let dh_de := 1 + st.dPde_rho / rho
      let dh_drho := -st.Pressure * (rho ^ 2)⁻¹ + st.dPdrho_e / rho
      let determinant := dh_drho * st.dsde_rho - dh_de * st.dsdrho_e
      let delta_rho := (st.dsde_rho * delta_h - dh_de * delta_s) / determinant
      let delta_e := (-st.dsdrho_e * delta_h + dh_drho * delta_s) / determinant
      hsloop m relax h s (rho - relax * delta_rho) (e - relax * delta_e) (iter + 1) fuel

/-- `CDataDrivenFluid::SetTDState_hs` (CDataDrivenFluid.cpp:321-371). -/
def SetTDState_hs (m : Manifold) (relax rho_start e_start h s : ℚ) : TDState :=
  let r := hsloop m relax h s rho_start e_start 0 1000
  SetTDState_rhoe m r.rho r.e

/-- Newton loop of `CDataDrivenFluid::SetTDState_Ps`
(CDataDrivenFluid.cpp:393-418): two-variable iteration targeting pressure
and entropy. -/
def Psloop (m : Manifold) (relax P s : ℚ) : ℚ → ℚ → ℕ → ℕ → NewtonIter
  | rho, e, iter, 0 => ⟨rho, e, iter, false⟩
  | rho, e, iter, fuel + 1 =>
    let st := SetTDState_rhoe m rho e
    let delta_P := st.Pressure - P
    let delta_s := st.Entropy - s
    if |delta_P| < 10 ∧ |delta_s| < 1 then ⟨rho, e, iter + 1, true⟩
    else
      let determinant := st.dPdrho_e * st.dsde_rho - st.dPde_rho * st.dsdrho_e
      let delta_rho := (st.dsde_rho * delta_P - st.dPde_rho * delta_s) / determinant
      let delta_e := (-st.dsdrho_e * delta_P + st.dPdrho_e * delta_s) / determinant
      Psloop m relax P s (rho - relax * delta_rho) (e - relax * delta_e) (iter + 1) fuel

/-- `CDataDrivenFluid::SetTDState_Ps` (CDataDrivenFluid.cpp:373-422). -/
def SetTDState_Ps (m : Manifold) (relax rho_start e_start P s : ℚ) : TDState :=
  let r := Psloop m relax P s rho_start e_start 0 1000
  SetTDState_rhoe m r.rho r.e

/-- Backend selector for the data-driven fluid model
(`ENUM_DATADRIVEN_METHOD`): a trained multilayer perceptron or a lookup
table. -/
inductive ENUM_DATADRIVEN_METHOD where
  | MLP
  | LUT
deriving DecidableEq

/-- Configuration options read by the `CDataDrivenFluid` constructor. -/
structure DataDrivenConfig where
  Kind_DataDriven_Method : ENUM_DATADRIVEN_METHOD
  DataDriven_Filename : String
  Relaxation_DataDriven : ℚ
  Density_Init_DataDriven : ℚ
  Energy_Init_DataDriven : ℚ

/-- Members of `CDataDrivenFluid` fixed by its constructor. -/
structure CDataDrivenFluid where
  Kind_DataDriven_Method : ENUM_DATADRIVEN_METHOD
  input_filename : String
  Newton_Relaxation : ℚ
  rho_start : ℚ
  e_start : ℚ

/-- `CDataDrivenFluid::CDataDrivenFluid` (CDataDrivenFluid.cpp:30-64): the
construction-time check `if (Kind_DataDriven_Method !=
ENUM_DATADRIVEN_METHOD::MLP) SU2_MPI::Error(...)` aborts for every backend
kind other than `MLP`; otherwise the filename, relaxation factor and
initial-guess options are stored. -/
def CDataDrivenFluid_construct (config : DataDrivenConfig) : Except String CDataDrivenFluid :=
  let kind := config.Kind_DataDriven_Method
  if kind ≠ ENUM_DATADRIVEN_METHOD.MLP then
    Except.error "Only multi-layer perceptrons are currently accepted for data-driven fluid models."
  else
    Except.ok
      { Kind_DataDriven_Method := kind
        input_filename := config.DataDriven_Filename
        Newton_Relaxation := config.Relaxation_DataDriven
        rho_start := config.Density_Init_DataDriven
        e_start := config.Energy_Init_DataDriven }

/-- Modelled from the spec: numeric value of `UNIVERSAL_GAS_CONSTANT`
(`R_universal`, J/(kmol·K)); the constant is defined in a header outside the
translated slice. -/
def UNIVERSAL_GAS_CONSTANT : ℚ := 8314462618 / 1000000

/-- Modelled from the spec: slot of the progress variable in the flamelet
scalar vector (`I_PROGVAR`; the enum lives in a header outside the
translated slice). -/
def I_PROGVAR : ℕ := 0

/-- Modelled from the spec: slot of the total enthalpy in the flamelet
scalar vector (`I_ENTH`). -/
def I_ENTH : ℕ := 1

/-- Modelled from the spec: slot of the mixture fraction in the flamelet
scalar vector (`I_MIXFRAC`), used only with three control variables. -/
def I_MIXFRAC : ℕ := 2

/-- Modelled from the spec: slot of the total progress-variable source term
(`I_SRC_TOT_PROGVAR`). -/
def I_SRC_TOT_PROGVAR : ℕ := 0

/-- Modelled from the spec: slots of the thermodynamic lookup group
(`LOOKUP_TD` enum, header outside the translated slice), in the order the
names are registered in `CFluidFlamelet::PreprocessLookUp`. -/
def LOOKUP_TD.TEMPERATURE : ℕ := 0

/-- Slot of the heat capacity in the thermodynamic lookup group. -/
def LOOKUP_TD.HEATCAPACITY : ℕ := 1

/-- Slot of the dynamic viscosity in the thermodynamic lookup group. -/
def LOOKUP_TD.VISCOSITY : ℕ := 2

/-- Slot of the thermal conductivity in the thermodynamic lookup group. -/
def LOOKUP_TD.CONDUCTIVITY : ℕ := 3

/-- Slot of the diffusion coefficient in the thermodynamic lookup group. -/
def LOOKUP_TD.DIFFUSIONCOEFFICIENT : ℕ := 4

/-- Slot of the mixture molar weight in the thermodynamic lookup group. -/
def LOOKUP_TD.MOLARWEIGHT : ℕ := 5

/-- Number of entries of the thermodynamic lookup group (`LOOKUP_TD::SIZE`). -/
def LOOKUP_TD.SIZE : ℕ := 6

/-- Output groups of `CFluidFlamelet::EvaluateDataSet`
(`FLAMELET_LOOKUP_OPS`): thermodynamic quantities, scalar source terms,
passive lookups. -/
inductive FLAMELET_LOOKUP_OPS where
  | TD
  | SOURCES
  | LOOKUP
deriving DecidableEq

/-- Modelled from the spec: the tabulated manifold backend (`CLookUpTable`,
defined outside the translated slice).  A query returns the interpolated
value of each requested variable; the extrapolation flag depends on the
query point only — it is raised exactly when the point lies outside the
tabulated domain. -/
structure CLookUpTable where
  lookupXY : List String → ℚ → ℚ → List ℚ
  lookupXYZ : List String → ℚ → ℚ → ℚ → List ℚ
  inDomainXY : ℚ → ℚ → Bool
  inDomainXYZ : ℚ → ℚ → ℚ → Bool

/-- Modelled from the spec: `CLookUpTable::LookUp_XY` — best-estimate values
plus the extrapolation flag for a two-control-variable query. -/
def LookUp_XY (t : CLookUpTable) (varnames : List String) (x y : ℚ) : List ℚ × Bool :=
  (t.lookupXY varnames x y, !t.inDomainXY x y)

/-- Modelled from the spec: `CLookUpTable::LookUp_XYZ` — best-estimate
values plus the extrapolation flag for a three-control-variable query. -/
def LookUp_XYZ (t : CLookUpTable) (varnames : List String) (x y z : ℚ) : List ℚ × Bool :=
  (t.lookupXYZ varnames x y z, !t.inDomainXYZ x y z)

/-- Members of `CFluidFlamelet` (its own fields plus the `CFluidModel` base
fields written by `SetTDState_T`). -/
structure CFluidFlamelet where
  n_user_scalars : ℕ
  n_control_vars : ℕ
  include_mixture_fraction : Bool
  n_scalars : ℕ
  Pressure : ℚ
  look_up_table : CLookUpTable
  table_scalar_names : List String
  varnames_TD : List String
  val_vars_TD : List ℚ
  varnames_Sources : List String
  val_vars_Sources : List ℚ
  varnames_LookUp : List String
  val_vars_LookUp : List ℚ
  scalars_vector : List ℚ
  extrapolation : Bool
  Temperature : ℚ
  Cp : ℚ
  Cv : ℚ
  Mu : ℚ
  Kt : ℚ
  mass_diffusivity : ℚ
  molar_weight : ℚ
  Density : ℚ

/-- Configuration options read by the `CFluidFlamelet` constructor and
`PreprocessLookUp`. -/
structure FlameletConfig where
  n_user_scalars : ℕ
  n_control_vars : ℕ
  n_scalars : ℕ
  user_scalar_name : ℕ → String
  user_source_name : ℕ → String
  n_lookups : ℕ
  lut_lookup_name : ℕ → String
  file_name_lut : CLookUpTable

/-- `CFluidFlamelet::CFluidFlamelet` together with `PreprocessLookUp`
(CFluidFlamelet.cpp:31-71, 93-129): store the scalar counts, set
`include_mixture_fraction` exactly when three control variables are
configured, fix the operating pressure, load the lookup table, and build the
name/slot tables of the three output groups once. -/
def CFluidFlamelet_construct (config : FlameletConfig) (value_pressure_operating : ℚ) : CFluidFlamelet :=
  let n_user_scalars := config.n_user_scalars
  let n_control_vars := config.n_control_vars
  let include_mixture_fraction := n_control_vars == 3
  let n_scalars := config.n_scalars
  let table_scalar_names := (List.range n_scalars).map (fun i =>
    if i = I_PROGVAR then "ProgressVariable"
    else if i = I_ENTH then "EnthalpyTot"
    else if include_mixture_fraction = true ∧ i = I_MIXFRAC then "MixtureFraction"
    else if n_control_vars ≤ i then config.user_scalar_name (i - n_control_vars)
    else "")
  let varnames_TD := ["Temperature", "Cp", "ViscosityDyn", "Conductivity",
    "DiffusionCoefficient", "MolarWeightMix"]
  let varnames_Sources :=
    "ProdRateTot_PV" :: (List.range (2 * n_user_scalars)).map config.user_source_name
  let varnames_LookUp := (List.range config.n_lookups).map config.lut_lookup_name
  { n_user_scalars := n_user_scalars
    n_control_vars := n_control_vars
    include_mixture_fraction := include_mixture_fraction
    n_scalars := n_scalars
    Pressure := value_pressure_operating
    look_up_table := config.file_name_lut
    table_scalar_names := table_scalar_names
    varnames_TD := varnames_TD
    val_vars_TD := List.replicate LOOKUP_TD.SIZE 0
    varnames_Sources := varnames_Sources
    val_vars_Sources := List.replicate (1 + 2 * n_user_scalars) 0
    varnames_LookUp := varnames_LookUp
    val_vars_LookUp := List.replicate config.n_lookups 0
    scalars_vector := List.replicate n_scalars 0
    extrapolation := false
    Temperature := 0, Cp := 0, Cv := 0, Mu := 0, Kt := 0
    mass_diffusivity := 0, molar_weight := 0, Density := 0 }

/-- `CFluidFlamelet::EvaluateDataSet` (CFluidFlamelet.cpp:131-163): read the
controlling variables from the input scalar vector, pick the name table of
the requested output group, abort if the output vector size does not match,
otherwise query the lookup table and overwrite the `extrapolation` member
with this query's flag.  `output_refs` carries the destination vector (only
its size is read; the returned list holds the freshly written values). -/
def EvaluateDataSet (f : CFluidFlamelet) (input_scalar : List ℚ)
    (lookup_type : FLAMELET_LOOKUP_OPS) (output_refs : List ℚ) :
    Except String (CFluidFlamelet × List ℚ × Bool) :=
  let val_enth := input_scalar.getD I_ENTH 0
  let val_prog := input_scalar.getD I_PROGVAR 0
  let val_mixfrac := if f.include_mixture_fraction then input_scalar.getD I_MIXFRAC 0 else 0
  let varnames :=
    match lookup_type with
    | FLAMELET_LOOKUP_OPS.TD => f.varnames_TD
    | FLAMELET_LOOKUP_OPS.SOURCES => f.varnames_Sources
    | FLAMELET_LOOKUP_OPS.LOOKUP => f.varnames_LookUp
  if output_refs.length ≠ varnames.length then
    Except.error "Output vector size incompatible with manifold lookup operation."
  else
    let res :=
      if f.include_mixture_fraction then
        LookUp_XYZ f.look_up_table varnames val_prog val_enth val_mixfrac
      else
        LookUp_XY f.look_up_table varnames val_prog val_enth
    Except.ok ({ f with extrapolation := res.2 }, res.1, res.2)

/-- `CFluidFlamelet::SetTDState_T` (CFluidFlamelet.cpp:75-91): copy the
first `n_scalars` input scalars, look up the thermodynamic group, then set
the state fields; density comes from the ideal-gas closure
`P_operating / (M · R_universal · T)` and `Cv = Cp - R_universal / M`.
The `val_temperature` argument is never read. -/
def SetTDState_T (f : CFluidFlamelet) (val_temperature : ℚ) (val_scalars : List ℚ) :
    Except String CFluidFlamelet :=
  let scalars_vector := (List.range f.n_scalars).map (fun i => val_scalars.getD i 0)
  let f1 := { f with scalars_vector := scalars_vector }
  match EvaluateDataSet f1 scalars_vector FLAMELET_LOOKUP_OPS.TD f1.val_vars_TD with
  | Except.error msg => Except.error msg
  | Except.ok (f2, vals, _) =>
    let Temperature := vals.getD LOOKUP_TD.TEMPERATURE 0
    let Cp := vals.getD LOOKUP_TD.HEATCAPACITY 0
    let Mu := vals.getD LOOKUP_TD.VISCOSITY 0
    let Kt := vals.getD LOOKUP_TD.CONDUCTIVITY 0
    let mass_diffusivity := vals.getD LOOKUP_TD.DIFFUSIONCOEFFICIENT 0
    let molar_weight := vals.getD LOOKUP_TD.MOLARWEIGHT 0
    Except.ok
      { f2 with
        val_vars_TD := vals
        Temperature := Temperature
        Cp := Cp
        Mu := Mu
        Kt := Kt
        mass_diffusivity := mass_diffusivity
        molar_weight := molar_weight
        Density := f2.Pressure / (molar_weight * UNIVERSAL_GAS_CONSTANT * Temperature)
        Cv := Cp - UNIVERSAL_GAS_CONSTANT / molar_weight }

/-- Extract the value of a successful flamelet call, with a default for the
error case (used to state closed corollaries about concrete calls). -/
def getOk (x : Except String CFluidFlamelet) (d : CFluidFlamelet) : CFluidFlamelet :=
  match x with
  | Except.ok v => v
  | Except.error _ => d

/-- Concrete lookup-table fixture: every variable interpolates to the sum
of the control variables, and the tabulated domain is `x ≤ 1`. -/
def tab1 : CLookUpTable :=
  { lookupXY := fun varnames x y => varnames.map (fun _ => x + y)
    lookupXYZ := fun varnames x y z => varnames.map (fun _ => x + y + z)
    inDomainXY := fun x _ => decide (x ≤ 1)
    inDomainXYZ := fun x _ _ => decide (x ≤ 1) }

/-- Concrete flamelet configuration fixture: two control variables, no user
scalars, no passive lookups, backed by `tab1`. -/
def cfgA : FlameletConfig :=
  { n_user_scalars := 0
    n_control_vars := 2
    n_scalars := 2
    user_scalar_name := fun _ => ""
    user_source_name := fun _ => ""
    n_lookups := 0
    lut_lookup_name := fun _ => ""
    file_name_lut := tab1 }

/-- Concrete flamelet fluid-model fixture with operating pressure `100`. -/
def fA : CFluidFlamelet := CFluidFlamelet_construct cfgA 100

/-- Extract the value of a successful `EvaluateDataSet` call, with a default
for the error case. -/
def getOkE (x : Except String (CFluidFlamelet × List ℚ × Bool))
    (d : CFluidFlamelet × List ℚ × Bool) : CFluidFlamelet × List ℚ × Bool :=
  match x with
  | Except.ok v => v
  | Except.error _ => d

/-- Result of a thermodynamic-group query of `fA` at the out-of-domain
point `(5, 7)`. -/
def c8r1 : CFluidFlamelet × List ℚ × Bool :=
  getOkE (EvaluateDataSet fA [5, 7] FLAMELET_LOOKUP_OPS.TD fA.val_vars_TD) (fA, [], false)

/-- Result of the follow-up source-term-group query at the same point,
issued on the state left by the first query. -/
def c8r2 : CFluidFlamelet × List ℚ × Bool :=
  getOkE (EvaluateDataSet c8r1.1 [5, 7] FLAMELET_LOOKUP_OPS.SOURCES c8r1.1.val_vars_Sources)
    (fA, [], false)

/-- State produced by a successful `SetTDState_T` call on the fixture model
`fA` at the in-domain control point `(1/2, 1/4)`. -/
def c9res : CFluidFlamelet := getOk (SetTDState_T fA 0 [1 / 2, 1 / 4]) fA

/-- Stub manifold whose reported second derivative is inconsistent with its
first derivative: the entropy-energy slope `s_e = 1/(500 + e)` makes the
actual temperature `T = 1/s_e = 500 + e`, while the reported
`s_ee = 1/(500 + e)²` makes the evaluator compute
`dT/de = -s_ee/s_e² = -1` — the wrong sign.  Away from `e = -500` every
divisor along a Newton trace is nonzero and every quantity finite, yet each
under-relaxed temperature step moves away from the solution and doubles the
residual. -/
def mDiv : Manifold :=
  { s := fun _ _ => 0
    dsde_rho := fun _ e => 1 / (500 + e)
    dsdrho_e := fun _ _ => 0
    d2sde2 := fun _ e => 1 / (500 + e) ^ 2
    d2sdedrho := fun _ _ => 0
    d2sdrho2 := fun _ _ => 0 }

/-- C1: the forward evaluator sets `Temperature = 1 / s_e` and
`Pressure = -ρ² · Temperature · s_ρ` for every `(ρ, e)`; with the constant
stub manifold (`s_e = 0.002`, `s_ρ = -0.5`) evaluated at `ρ = 1.2`,
`e = 2.0e5` this yields `Temperature = 500` and `Pressure = 360` exactly,
and `Cv = 1 / dTde_rho` divides by zero (`dTde_rho = 0` because
`s_ee = 0`), which in IEEE arithmetic is the detectable non-finite value. -/
theorem C1_forward_temperature_pressure :
    (∀ (m : Manifold) (rho e : ℚ),
      (SetTDState_rhoe m rho e).Temperature = 1 / m.dsde_rho rho e ∧
      (SetTDState_rhoe m rho e).Pressure =
        -rho ^ 2 * (SetTDState_rhoe m rho e).Temperature * m.dsdrho_e rho e) ∧
    (SetTDState_rhoe stubConst (6 / 5) 200000).Temperature = 500 ∧
    (SetTDState_rhoe stubConst (6 / 5) 200000).Pressure = 360 ∧
    (SetTDState_rhoe stubConst (6 / 5) 200000).dTde_rho = 0 ∧
    (SetTDState_rhoe stubConst (6 / 5) 200000).Cv =
      1 / (SetTDState_rhoe stubConst (6 / 5) 200000).dTde_rho := by
  refine ⟨fun m rho e => ⟨rfl, rfl⟩, ?_, ?_, ?_, rfl⟩
  · show (1 : ℚ) / (1 / 500) = 500
    norm_num
  · show -(6 / 5 : ℚ) ^ 2 * (1 / (1 / 500)) * (-(1 / 2)) = 360
    norm_num
  · show -(((1 : ℚ) / 500) ^ 2)⁻¹ * 0 = 0
    norm_num

/-- C2: the squared speed of sound is computed with exactly the stated
algebraic grouping: `blue = s_ρ·(2 − ρ·s_eρ/s_e) + ρ·s_ρρ`,
`green = −(s_ee/s_e)·s_ρ + s_eρ`,
`c² = −ρ·(1/s_e)·(blue − ρ·green·(s_ρ/s_e))`. -/
theorem C2_sound_speed_grouping (m : Manifold) (rho e : ℚ) :
    (SetTDState_rhoe m rho e).SoundSpeed2 =
      -rho * (1 / m.dsde_rho rho e) *
        ((m.dsdrho_e rho e * (2 - rho * m.d2sdedrho rho e / m.dsde_rho rho e) +
            rho * m.d2sdrho2 rho e) -
          rho * (-(m.d2sde2 rho e / m.dsde_rho rho e) * m.dsdrho_e rho e +
            m.d2sdedrho rho e) * (m.dsdrho_e rho e / m.dsde_rho rho e)) := by
  show -rho * (m.dsde_rho rho e)⁻¹ * _ = _
  field_simp

/-- C3: the secondary quantities are exactly `dT/de = -s_ee/s_e²`,
`dT/dρ = 0`, `dP/de = -ρ²·(dT/de)·s_ρ`, `dP/dρ = -2ρTs_ρ - ρ²Ts_ρρ`,
`Cv = 1/(dT/de)`, `Cp = Cv·(1 + (1/ρ)·dP/de)`, `γ = Cp/Cv` and
`R = Cp - Cv`. -/
theorem C3_secondary_quantities (m : Manifold) (rho e : ℚ) :
    (SetTDState_rhoe m rho e).dTde_rho =
      -(m.d2sde2 rho e) / (m.dsde_rho rho e) ^ 2 ∧
    (SetTDState_rhoe m rho e).dTdrho_e = 0 ∧
    (SetTDState_rhoe m rho e).dPde_rho =
      -rho ^ 2 * (SetTDState_rhoe m rho e).dTde_rho * m.dsdrho_e rho e ∧
    (SetTDState_rhoe m rho e).dPdrho_e =
      -2 * rho * (SetTDState_rhoe m rho e).Temperature * m.dsdrho_e rho e -
        rho ^ 2 * (SetTDState_rhoe m rho e).Temperature * m.d2sdrho2 rho e ∧
    (SetTDState_rhoe m rho e).Cv = 1 / (SetTDState_rhoe m rho e).dTde_rho ∧
    (SetTDState_rhoe m rho e).Cp =
      (SetTDState_rhoe m rho e).Cv *
        (1 + (1 / rho) * (SetTDState_rhoe m rho e).dPde_rho) ∧
    (SetTDState_rhoe m rho e).Gamma =
      (SetTDState_rhoe m rho e).Cp / (SetTDState_rhoe m rho e).Cv ∧
    (SetTDState_rhoe m rho e).Gas_Constant =
      (SetTDState_rhoe m rho e).Cp - (SetTDState_rhoe m rho e).Cv := by
  refine ⟨?_, rfl, rfl, rfl, rfl, rfl, rfl, rfl⟩
  show -((m.dsde_rho rho e) ^ 2)⁻¹ * m.d2sde2 rho e = _
  ring

/-- Unfolding equation of `PTloop` at exhausted fuel (iteration cap hit):
the loop exits with the current guess and `converged = false`. -/
theorem PTloop_zero (m : Manifold) (relax P T rho e : ℚ) (iter : ℕ) :
    PTloop m relax P T rho e iter 0 = ⟨rho, e, iter, false⟩ := rfl

/-- Unfolding equation of one `PTloop` iteration. -/
theorem PTloop_succ (m : Manifold) (relax P T rho e : ℚ) (iter fuel : ℕ) :
    PTloop m relax P T rho e iter (fuel + 1) =
      (let st := SetTDState_rhoe m rho e
       let delta_P := st.Pressure - P
       let delta_T := st.Temperature - T
       if |delta_P| < 10 ∧ |delta_T| < 1 then ⟨rho, e, iter + 1, true⟩
       else
         let determinant := st.dPdrho_e * st.dTde_rho - st.dPde_rho * st.dTdrho_e
         let delta_rho := (st.dTde_rho * delta_P - st.dPde_rho * delta_T) / determinant
         let delta_e := (-st.dTdrho_e * delta_P + st.dPdrho_e * delta_T) / determinant
         PTloop m relax P T (rho - relax * delta_rho) (e - relax * delta_e) (iter + 1) fuel) := rfl

/-- Unfolding equation of `Prholoop` at exhausted fuel. -/
theorem Prholoop_zero (m : Manifold) (relax P rho e : ℚ) (iter : ℕ) :
    Prholoop m relax P rho e iter 0 = ⟨e, iter, false⟩ := rfl

/-- Unfolding equation of one `Prholoop` iteration. -/
theorem Prholoop_succ (m : Manifold) (relax P rho e : ℚ) (iter fuel : ℕ) :
    Prholoop m relax P rho e iter (fuel + 1) =
      (let st := SetTDState_rhoe m rho e
       let delta_P := st.Pressure - P
       if |delta_P| < 10 then ⟨e, iter + 1, true⟩
       else
         let delta_e := delta_P / st.dPde_rho
         Prholoop m relax P rho (e - relax * delta_e) (iter + 1) fuel) := rfl

/-- Unfolding equation of `rhoTloop` at exhausted fuel. -/
theorem rhoTloop_zero (m : Manifold) (relax T rho e : ℚ) (iter : ℕ) :
    rhoTloop m relax T rho e iter 0 = ⟨e, iter, false⟩ := rfl

/-- Unfolding equation of one `rhoTloop` iteration. -/
theorem rhoTloop_succ (m : Manifold) (relax T rho e : ℚ) (iter fuel : ℕ) :
    rhoTloop m relax T rho e iter (fuel + 1) =
      (let st := SetTDState_rhoe m rho e
       let delta_T := st.Temperature - T
       if |delta_T| < 1 then ⟨e, iter + 1, true⟩
       else
         let delta_e := delta_T / st.dTde_rho
         rhoTloop m relax T rho (e - relax * delta_e) (iter + 1) fuel) := rfl

/-- Unfolding equation of `hsloop` at exhausted fuel. -/
theorem hsloop_zero (m : Manifold) (relax h s rho e : ℚ) (iter : ℕ) :
    hsloop m relax h s rho e iter 0 = ⟨rho, e, iter, false⟩ := rfl

/-- Unfolding equation of one `hsloop` iteration. -/
theorem hsloop_succ (m : Manifold) (relax h s rho e : ℚ) (iter fuel : ℕ) :
    hsloop m relax h s rho e iter (fuel + 1) =
      (let st := SetTDState_rhoe m rho e
       let Enthalpy := e + st.Pressure / rho
       let delta_h := Enthalpy - h
       let delta_s := st.Entropy - s
       if |delta_h| < 10 ∧ |delta_s| < 1 then ⟨rho, e, iter + 1, true⟩
       else
         let dh_de := 1 + st.dPde_rho / rho
         let dh_drho := -st.Pressure * (rho ^ 2)⁻¹ + st.dPdrho_e / rho
         let determinant := dh_drho * st.dsde_rho - dh_de * st.dsdrho_e
         let delta_rho := (st.dsde_rho * delta_h - dh_de * delta_s) / determinant
         let delta_e := (-st.dsdrho_e * delta_h + dh_drho * delta_s) / determinant
         hsloop m relax h s (rho - relax * delta_rho) (e - relax * delta_e) (iter + 1) fuel) := rfl

/-- Unfolding equation of `Psloop` at exhausted fuel. -/
theorem Psloop_zero (m : Manifold) (relax P s rho e : ℚ) (iter : ℕ) :
    Psloop m relax P s rho e iter 0 = ⟨rho, e, iter, false⟩ := rfl

/-- Unfolding equation of one `Psloop` iteration. -/
theorem Psloop_succ (m : Manifold) (relax P s rho e : ℚ) (iter fuel : ℕ) :
    Psloop m relax P s rho e iter (fuel + 1) =
      (let st := SetTDState_rhoe m rho e
       let delta_P := st.Pressure - P
       let delta_s := st.Entropy - s
       if |delta_P| < 10 ∧ |delta_s| < 1 then ⟨rho, e, iter + 1, true⟩
       else
         let determinant := st.dPdrho_e * st.dsde_rho - st.dPde_rho * st.dsdrho_e
         let delta_rho := (st.dsde_rho * delta_P - st.dPde_rho * delta_s) / determinant
         let delta_e := (-st.dsdrho_e * delta_P + st.dPdrho_e * delta_s) / determinant
         Psloop m relax P s (rho - relax * delta_rho) (e - relax * delta_e) (iter + 1) fuel) := rfl

/-- C4: each inversion solver's Newton loop declares convergence and stops
exactly when all of its residuals are simultaneously inside their fixed
absolute tolerances (strictly: `|ΔP| < 10`, `|Δh| < 10`, `|ΔT| < 1`,
`|Δs| < 1`), and otherwise — while the iteration cap is not yet reached —
performs one more under-relaxed Cramer-rule Newton update; at the cap the
loop stops regardless. -/
theorem C4_tolerance_stopping_rule (m : Manifold) (relax : ℚ) :
    (∀ (P T rho e : ℚ) (iter fuel : ℕ),
      PTloop m relax P T rho e iter (fuel + 1) =
        (let st := SetTDState_rhoe m rho e
         if |st.Pressure - P| < 10 ∧ |st.Temperature - T| < 1 then
           ⟨rho, e, iter + 1, true⟩
         else
           let determinant := st.dPdrho_e * st.dTde_rho - st.dPde_rho * st.dTdrho_e
           PTloop m relax P T
             (rho - relax * ((st.dTde_rho * (st.Pressure - P) -
               st.dPde_rho * (st.Temperature - T)) / determinant))
             (e - relax * ((-st.dTdrho_e * (st.Pressure - P) +
               st.dPdrho_e * (st.Temperature - T)) / determinant))
             (iter + 1) fuel) ∧
      PTloop m relax P T rho e iter 0 = ⟨rho, e, iter, false⟩) ∧
    (∀ (P rho e : ℚ) (iter fuel : ℕ),
      Prholoop m relax P rho e iter (fuel + 1) =
        (let st := SetTDState_rhoe m rho e
         if |st.Pressure - P| < 10 then ⟨e, iter + 1, true⟩
         else
           Prholoop m relax P rho
             (e - relax * ((st.Pressure - P) / st.dPde_rho)) (iter + 1) fuel) ∧
      Prholoop m relax P rho e iter 0 = ⟨e, iter, false⟩) ∧
    (∀ (T rho e : ℚ) (iter fuel : ℕ),
      rhoTloop m relax T rho e iter (fuel + 1) =
        (let st := SetTDState_rhoe m rho e
         if |st.Temperature - T| < 1 then ⟨e, iter + 1, true⟩
         else
           rhoTloop m relax T rho
             (e - relax * ((st.Temperature - T) / st.dTde_rho)) (iter + 1) fuel) ∧
      rhoTloop m relax T rho e iter 0 = ⟨e, iter, false⟩) ∧
    (∀ (h s rho e : ℚ) (iter fuel : ℕ),
      hsloop m relax h s rho e iter (fuel + 1) =
        (let st := SetTDState_rhoe m rho e
         if |e + st.Pressure / rho - h| < 10 ∧ |st.Entropy - s| < 1 then
           ⟨rho, e, iter + 1, true⟩
         else
           let dh_de := 1 + st.dPde_rho / rho
           let dh_drho := -st.Pressure * (rho ^ 2)⁻¹ + st.dPdrho_e / rho
           let determinant := dh_drho * st.dsde_rho - dh_de * st.dsdrho_e
           hsloop m relax h s
             (rho - relax * ((st.dsde_rho * (e + st.Pressure / rho - h) -
               dh_de * (st.Entropy - s)) / determinant))
             (e - relax * ((-st.dsdrho_e * (e + st.Pressure / rho - h) +
               dh_drho * (st.Entropy - s)) / determinant))
             (iter + 1) fuel) ∧
      hsloop m relax h s rho e iter 0 = ⟨rho, e, iter, false⟩) ∧
    (∀ (P s rho e : ℚ) (iter fuel : ℕ),
      Psloop m relax P s rho e iter (fuel + 1) =
        (let st := SetTDState_rhoe m rho e
         if |st.Pressure - P| < 10 ∧ |st.Entropy - s| < 1 then
           ⟨rho, e, iter + 1, true⟩
         else
           let determinant := st.dPdrho_e * st.dsde_rho - st.dPde_rho * st.dsdrho_e
           Psloop m relax P s
             (rho - relax * ((st.dsde_rho * (st.Pressure - P) -
               st.dPde_rho * (st.Entropy - s)) / determinant))
             (e - relax * ((-st.dsdrho_e * (st.Pressure - P) +
               st.dPdrho_e * (st.Entropy - s)) / determinant))
             (iter + 1) fuel) ∧
      Psloop m relax P s rho e iter 0 = ⟨rho, e, iter, false⟩) :=
  ⟨fun _ _ _ _ _ _ => ⟨rfl, rfl⟩, fun _ _ _ _ _ => ⟨rfl, rfl⟩,
   fun _ _ _ _ _ => ⟨rfl, rfl⟩, fun _ _ _ _ _ _ => ⟨rfl, rfl⟩,
   fun _ _ _ _ _ _ => ⟨rfl, rfl⟩⟩

/-- On the all-zero stub manifold every derived quantity except density,
energy and `Gamma_Minus_One` evaluates to zero (all divisions hit a zero
denominator, which the rational model maps to `0`). -/
theorem SetTDState_rhoe_stub0 (rho e : ℚ) :
    SetTDState_rhoe stub0 rho e =
      { Density := rho, StaticEnergy := e, Entropy := 0, dsde_rho := 0,
        dsdrho_e := 0, d2sde2 := 0, d2sdedrho := 0, d2sdrho2 := 0,
        SoundSpeed2 := 0, Temperature := 0, Pressure := 0, dTde_rho := 0,
        dTdrho_e := 0, dPde_rho := 0, dPdrho_e := 0, Cp := 0, Cv := 0,
        Gamma := 0, Gamma_Minus_One := -1, Gas_Constant := 0 } := by
  simp only [SetTDState_rhoe, stub0]
  norm_num [TDState.mk.injEq]

/-- With the all-zero stub manifold and target `(P, T) = (100, 100)` the
pressure-temperature residuals never enter their tolerance bands, and the
singular Jacobian makes every Newton step vanish: each iterate stays at the
initial guess `(1, 0)` and the loop only stops when fuel runs out. -/
theorem PTloop_stub0_never : ∀ (fuel iter : ℕ),
    PTloop stub0 1 100 100 1 0 iter fuel = ⟨1, 0, iter + fuel, false⟩ := by
  intro fuel
  induction fuel with
  | zero => intro iter; rfl
  | succ n ih =>
    intro iter
    rw [PTloop_succ, SetTDState_rhoe_stub0]
    norm_num
    rw [ih (iter + 1)]
    simp [NewtonIter.mk.injEq]
    omega

/-- With the all-zero stub manifold and target `P = 100` the pressure
residual never enters its tolerance band and the Newton step divides by
`dPde_rho = 0`: the energy iterate stays at `0` until fuel runs out. -/
theorem Prholoop_stub0_never : ∀ (fuel iter : ℕ),
    Prholoop stub0 1 100 1 0 iter fuel = ⟨0, iter + fuel, false⟩ := by
  intro fuel
  induction fuel with
  | zero => intro iter; rfl
  | succ n ih =>
    intro iter
    rw [Prholoop_succ, SetTDState_rhoe_stub0]
    norm_num
    rw [ih (iter + 1)]
    simp [NewtonIter1.mk.injEq]
    omega

/-- With the all-zero stub manifold and target `T = 100` the temperature
residual never enters its tolerance band and the Newton step divides by
`dTde_rho = 0`: the energy iterate stays at `0` until fuel runs out. -/
theorem rhoTloop_stub0_never : ∀ (fuel iter : ℕ),
    rhoTloop stub0 1 100 1 0 iter fuel = ⟨0, iter + fuel, false⟩ := by
  intro fuel
  induction fuel with
  | zero => intro iter; rfl
  | succ n ih =>
    intro iter
    rw [rhoTloop_succ, SetTDState_rhoe_stub0]
    norm_num
    rw [ih (iter + 1)]
    simp [NewtonIter1.mk.injEq]
    omega

/-- With the all-zero stub manifold and targets `(h, s) = (100, 100)` the
enthalpy-entropy residuals never enter their tolerance bands and the
singular Jacobian makes every Newton step vanish: each iterate stays at the
initial guess `(1, 0)` until fuel runs out. -/
theorem hsloop_stub0_never : ∀ (fuel iter : ℕ),
    hsloop stub0 1 100 100 1 0 iter fuel = ⟨1, 0, iter + fuel, false⟩ := by
  intro fuel
  induction fuel with
  | zero => intro iter; rfl
  | succ n ih =>
    intro iter
    rw [hsloop_succ, SetTDState_rhoe_stub0]
    norm_num
    rw [ih (iter + 1)]
    simp [NewtonIter.mk.injEq]
    omega

/-- With the all-zero stub manifold and targets `(P, s) = (100, 100)` the
pressure-entropy residuals never enter their tolerance bands and the
singular Jacobian makes every Newton step vanish: each iterate stays at the
initial guess `(1, 0)` until fuel runs out. -/
theorem Psloop_stub0_never : ∀ (fuel iter : ℕ),
    Psloop stub0 1 100 100 1 0 iter fuel = ⟨1, 0, iter + fuel, false⟩ := by
  intro fuel
  induction fuel with
  | zero => intro iter; rfl
  | succ n ih =>
    intro iter
    rw [Psloop_succ, SetTDState_rhoe_stub0]
    norm_num
    rw [ih (iter + 1)]
    simp [NewtonIter.mk.injEq]
    omega

/-- If the pressure-temperature Newton loop never declares convergence, it
runs down its whole fuel, incrementing the counter every iteration. -/
theorem PTloop_iter_cap (m : Manifold) (relax P T : ℚ) :
    ∀ (fuel : ℕ) (rho e : ℚ) (iter : ℕ),
      (PTloop m relax P T rho e iter fuel).converged = false →
      (PTloop m relax P T rho e iter fuel).iter = iter + fuel := by
  intro fuel
  induction fuel with
  | zero => intro rho e iter _; rfl
  | succ n ih =>
    intro rho e iter h
    by_cases hc : |(SetTDState_rhoe m rho e).Pressure - P| < 10 ∧
        |(SetTDState_rhoe m rho e).Temperature - T| < 1
    · rw [PTloop_succ] at h
      simp only [if_pos hc] at h
      exact absurd h (by simp)
    · rw [PTloop_succ] at h ⊢
      simp only [if_neg hc] at h ⊢
      rw [ih _ _ _ h]
      omega

/-- If the pressure-density Newton loop never declares convergence, it runs
down its whole fuel. -/
theorem Prholoop_iter_cap (m : Manifold) (relax P rho : ℚ) :
    ∀ (fuel : ℕ) (e : ℚ) (iter : ℕ),
      (Prholoop m relax P rho e iter fuel).converged = false →
      (Prholoop m relax P rho e iter fuel).iter = iter + fuel := by
  intro fuel
  induction fuel with
  | zero => intro e iter _; rfl
  | succ n ih =>
    intro e iter h
    by_cases hc : |(SetTDState_rhoe m rho e).Pressure - P| < 10
    · rw [Prholoop_succ] at h
      simp only [if_pos hc] at h
      exact absurd h (by simp)
    · rw [Prholoop_succ] at h ⊢
      simp only [if_neg hc] at h ⊢
      rw [ih _ _ h]
      omega

/-- If the density-temperature Newton loop never declares convergence, it
runs down its whole fuel. -/
theorem rhoTloop_iter_cap (m : Manifold) (relax T rho : ℚ) :
    ∀ (fuel : ℕ) (e : ℚ) (iter : ℕ),
      (rhoTloop m relax T rho e iter fuel).converged = false →
      (rhoTloop m relax T rho e iter fuel).iter = iter + fuel := by
  intro fuel
  induction fuel with
  | zero => intro e iter _; rfl
  | succ n ih =>
    intro e iter h
    by_cases hc : |(SetTDState_rhoe m rho e).Temperature - T| < 1
    · rw [rhoTloop_succ] at h
      simp only [if_pos hc] at h
      exact absurd h (by simp)
    · rw [rhoTloop_succ] at h ⊢
      simp only [if_neg hc] at h ⊢
      rw [ih _ _ h]
      omega

/-- If the enthalpy-entropy Newton loop never declares convergence, it runs
down its whole fuel. -/
theorem hsloop_iter_cap (m : Manifold) (relax h s : ℚ) :
    ∀ (fuel : ℕ) (rho e : ℚ) (iter : ℕ),
      (hsloop m relax h s rho e iter fuel).converged = false →
      (hsloop m relax h s rho e iter fuel).iter = iter + fuel := by
  intro fuel
  induction fuel with
  | zero => intro rho e iter _; rfl
  | succ n ih =>
    intro rho e iter hiter
    by_cases hc : |e + (SetTDState_rhoe m rho e).Pressure / rho - h| < 10 ∧
        |(SetTDState_rhoe m rho e).Entropy - s| < 1
    · rw [hsloop_succ] at hiter
      simp only [if_pos hc] at hiter
      exact absurd hiter (by simp)
    · rw [hsloop_succ] at hiter ⊢
      simp only [if_neg hc] at hiter ⊢
      rw [ih _ _ _ hiter]
      omega

/-- If the pressure-entropy Newton loop never declares convergence, it runs
down its whole fuel. -/
theorem Psloop_iter_cap (m : Manifold) (relax P s : ℚ) :
    ∀ (fuel : ℕ) (rho e : ℚ) (iter : ℕ),
      (Psloop m relax P s rho e iter fuel).converged = false →
      (Psloop m relax P s rho e iter fuel).iter = iter + fuel := by
  intro fuel
  induction fuel with
  | zero => intro rho e iter _; rfl
  | succ n ih =>
    intro rho e iter h
    by_cases hc : |(SetTDState_rhoe m rho e).Pressure - P| < 10 ∧
        |(SetTDState_rhoe m rho e).Entropy - s| < 1
    · rw [Psloop_succ] at h
      simp only [if_pos hc] at h
      exact absurd h (by simp)
    · rw [Psloop_succ] at h ⊢
      simp only [if_neg hc] at h ⊢
      rw [ih _ _ _ h]
      omega

/-- C5: whenever an inversion run never finds its residuals inside the
tolerances (`converged = false`), the Newton loop terminates after exactly
1000 iterations, and the solver returns normally: the state it leaves behind
is the forward evaluation at the last computed guess, with no error
signalled. -/
theorem C5_silent_iteration_cap (m : Manifold) (relax rho0 e0 : ℚ) :
    (∀ P T : ℚ, (PTloop m relax P T rho0 e0 0 1000).converged = false →
      (PTloop m relax P T rho0 e0 0 1000).iter = 1000 ∧
      SetTDState_PT m relax rho0 e0 P T =
        SetTDState_rhoe m (PTloop m relax P T rho0 e0 0 1000).rho
          (PTloop m relax P T rho0 e0 0 1000).e) ∧
    (∀ P rho : ℚ, (Prholoop m relax P rho e0 0 1000).converged = false →
      (Prholoop m relax P rho e0 0 1000).iter = 1000 ∧
      SetTDState_Prho m relax e0 P rho =
        SetTDState_rhoe m rho (Prholoop m relax P rho e0 0 1000).e) ∧
    (∀ T rho : ℚ, (rhoTloop m relax T rho e0 0 1000).converged = false →
      (rhoTloop m relax T rho e0 0 1000).iter = 1000 ∧
      SetTDState_rhoT m relax e0 rho T =
        SetTDState_rhoe m rho (rhoTloop m relax T rho e0 0 1000).e) ∧
    (∀ h s : ℚ, (hsloop m relax h s rho0 e0 0 1000).converged = false →
      (hsloop m relax h s rho0 e0 0 1000).iter = 1000 ∧
      SetTDState_hs m relax rho0 e0 h s =
        SetTDState_rhoe m (hsloop m relax h s rho0 e0 0 1000).rho
          (hsloop m relax h s rho0 e0 0 1000).e) ∧
    (∀ P s : ℚ, (Psloop m relax P s rho0 e0 0 1000).converged = false →
      (Psloop m relax P s rho0 e0 0 1000).iter = 1000 ∧
      SetTDState_Ps m relax rho0 e0 P s =
        SetTDState_rhoe m (Psloop m relax P s rho0 e0 0 1000).rho
          (Psloop m relax P s rho0 e0 0 1000).e) := by
  refine ⟨fun P T h => ⟨?_, rfl⟩, fun P rho h => ⟨?_, rfl⟩,
    fun T rho h => ⟨?_, rfl⟩, fun hh s h => ⟨?_, rfl⟩, fun P s h => ⟨?_, rfl⟩⟩
  · simpa using PTloop_iter_cap m relax P T 1000 rho0 e0 0 h
  · simpa using Prholoop_iter_cap m relax P rho 1000 e0 0 h
  · simpa using rhoTloop_iter_cap m relax T rho 1000 e0 0 h
  · simpa using hsloop_iter_cap m relax hh s 1000 rho0 e0 0 h
  · simpa using Psloop_iter_cap m relax P s 1000 rho0 e0 0 h

/-- Witness for C5: with the all-zero stub manifold, targets `100` and
initial guess `(1, 0)`, none of the five loops ever converges, each stops
after exactly 1000 iterations, and each solver returns the forward state of
its last guess. -/
theorem C5_silent_iteration_cap_witness :
    ((PTloop stub0 1 100 100 1 0 0 1000).iter = 1000 ∧
      SetTDState_PT stub0 1 1 0 100 100 =
        SetTDState_rhoe stub0 (PTloop stub0 1 100 100 1 0 0 1000).rho
          (PTloop stub0 1 100 100 1 0 0 1000).e) ∧
    ((Prholoop stub0 1 100 1 0 0 1000).iter = 1000 ∧
      SetTDState_Prho stub0 1 0 100 1 =
        SetTDState_rhoe stub0 1 (Prholoop stub0 1 100 1 0 0 1000).e) ∧
    ((rhoTloop stub0 1 100 1 0 0 1000).iter = 1000 ∧
      SetTDState_rhoT stub0 1 0 1 100 =
        SetTDState_rhoe stub0 1 (rhoTloop stub0 1 100 1 0 0 1000).e) ∧
    ((hsloop stub0 1 100 100 1 0 0 1000).iter = 1000 ∧
      SetTDState_hs stub0 1 1 0 100 100 =
        SetTDState_rhoe stub0 (hsloop stub0 1 100 100 1 0 0 1000).rho
          (hsloop stub0 1 100 100 1 0 0 1000).e) ∧
    ((Psloop stub0 1 100 100 1 0 0 1000).iter = 1000 ∧
      SetTDState_Ps stub0 1 1 0 100 100 =
        SetTDState_rhoe stub0 (Psloop stub0 1 100 100 1 0 0 1000).rho
          (Psloop stub0 1 100 100 1 0 0 1000).e) := by
  have h := C5_silent_iteration_cap stub0 1 1 0
  exact ⟨h.1 100 100 (by rw [PTloop_stub0_never]),
         h.2.1 100 1 (by rw [Prholoop_stub0_never]),
         h.2.2.1 100 1 (by rw [rhoTloop_stub0_never]),
         h.2.2.2.1 100 100 (by rw [hsloop_stub0_never]),
         h.2.2.2.2 100 100 (by rw [Psloop_stub0_never])⟩

/-- If the pressure-temperature loop declares convergence, the guess it
returns has both residuals strictly inside the tolerances. -/
theorem PTloop_conv_residuals (m : Manifold) (relax P T : ℚ) :
    ∀ (fuel : ℕ) (rho e : ℚ) (iter : ℕ),
      (PTloop m relax P T rho e iter fuel).converged = true →
      |(SetTDState_rhoe m (PTloop m relax P T rho e iter fuel).rho
          (PTloop m relax P T rho e iter fuel).e).Pressure - P| < 10 ∧
      |(SetTDState_rhoe m (PTloop m relax P T rho e iter fuel).rho
          (PTloop m relax P T rho e iter fuel).e).Temperature - T| < 1 := by
  intro fuel
  induction fuel with
  | zero => intro rho e iter h; exact absurd h (by simp [PTloop])
  | succ n ih =>
    intro rho e iter h
    by_cases hc : |(SetTDState_rhoe m rho e).Pressure - P| < 10 ∧
        |(SetTDState_rhoe m rho e).Temperature - T| < 1
    · rw [PTloop_succ]
      simp only [if_pos hc]
      exact hc
    · rw [PTloop_succ] at h ⊢
      simp only [if_neg hc] at h ⊢
      exact ih _ _ _ h

/-- If the pressure-density loop declares convergence, the energy it returns
has the pressure residual strictly inside its tolerance. -/
theorem Prholoop_conv_residuals (m : Manifold) (relax P rho : ℚ) :
    ∀ (fuel : ℕ) (e : ℚ) (iter : ℕ),
      (Prholoop m relax P rho e iter fuel).converged = true →
      |(SetTDState_rhoe m rho (Prholoop m relax P rho e iter fuel).e).Pressure - P| < 10 := by
  intro fuel
  induction fuel with
  | zero => intro e iter h; exact absurd h (by simp [Prholoop])
  | succ n ih =>
    intro e iter h
    by_cases hc : |(SetTDState_rhoe m rho e).Pressure - P| < 10
    · rw [Prholoop_succ]
      simp only [if_pos hc]
      exact hc
    · rw [Prholoop_succ] at h ⊢
      simp only [if_neg hc] at h ⊢
      exact ih _ _ h

/-- If the density-temperature loop declares convergence, the energy it
returns has the temperature residual strictly inside its tolerance. -/
theorem rhoTloop_conv_residuals (m : Manifold) (relax T rho : ℚ) :
    ∀ (fuel : ℕ) (e : ℚ) (iter : ℕ),
      (rhoTloop m relax T rho e iter fuel).converged = true →
      |(SetTDState_rhoe m rho (rhoTloop m relax T rho e iter fuel).e).Temperature - T| < 1 := by
  intro fuel
  induction fuel with
  | zero => intro e iter h; exact absurd h (by simp [rhoTloop])
  | succ n ih =>
    intro e iter h
    by_cases hc : |(SetTDState_rhoe m rho e).Temperature - T| < 1
    · rw [rhoTloop_succ]
      simp only [if_pos hc]
      exact hc
    · rw [rhoTloop_succ] at h ⊢
      simp only [if_neg hc] at h ⊢
      exact ih _ _ h

/-- If the enthalpy-entropy loop declares convergence, the guess it returns
has both residuals strictly inside the tolerances. -/
theorem hsloop_conv_residuals (m : Manifold) (relax h s : ℚ) :
    ∀ (fuel : ℕ) (rho e : ℚ) (iter : ℕ),
      (hsloop m relax h s rho e iter fuel).converged = true →
      |(hsloop m relax h s rho e iter fuel).e +
          (SetTDState_rhoe m (hsloop m relax h s rho e iter fuel).rho
            (hsloop m relax h s rho e iter fuel).e).Pressure /
            (hsloop m relax h s rho e iter fuel).rho - h| < 10 ∧
      |(SetTDState_rhoe m (hsloop m relax h s rho e iter fuel).rho
          (hsloop m relax h s rho e iter fuel).e).Entropy - s| < 1 := by
  intro fuel
  induction fuel with
  | zero => intro rho e iter hconv; exact absurd hconv (by simp [hsloop])
  | succ n ih =>
    intro rho e iter hconv
    by_cases hc : |e + (SetTDState_rhoe m rho e).Pressure / rho - h| < 10 ∧
        |(SetTDState_rhoe m rho e).Entropy - s| < 1
    · rw [hsloop_succ]
      simp only [if_pos hc]
      exact hc
    · rw [hsloop_succ] at hconv ⊢
      simp only [if_neg hc] at hconv ⊢
      exact ih _ _ _ hconv

/-- If the pressure-entropy loop declares convergence, the guess it returns
has both residuals strictly inside the tolerances. -/
theorem Psloop_conv_residuals (m : Manifold) (relax P s : ℚ) :
    ∀ (fuel : ℕ) (rho e : ℚ) (iter : ℕ),
      (Psloop m relax P s rho e iter fuel).converged = true →
      |(SetTDState_rhoe m (Psloop m relax P s rho e iter fuel).rho
          (Psloop m relax P s rho e iter fuel).e).Pressure - P| < 10 ∧
      |(SetTDState_rhoe m (Psloop m relax P s rho e iter fuel).rho
          (Psloop m relax P s rho e iter fuel).e).Entropy - s| < 1 := by
  intro fuel
  induction fuel with
  | zero => intro rho e iter h; exact absurd h (by simp [Psloop])
  | succ n ih =>
    intro rho e iter h
    by_cases hc : |(SetTDState_rhoe m rho e).Pressure - P| < 10 ∧
        |(SetTDState_rhoe m rho e).Entropy - s| < 1
    · rw [Psloop_succ]
      simp only [if_pos hc]
      exact hc
    · rw [Psloop_succ] at h ⊢
      simp only [if_neg hc] at h ⊢
      exact ih _ _ _ h

/-- Every power of two is at least one over the rationals. -/
theorem one_le_two_pow_q (n : ℕ) : (1 : ℚ) ≤ 2 ^ n := by
  induction n with
  | zero => norm_num
  | succ k ih =>
    rw [pow_succ]
    nlinarith

/-- No power of two equals six over the rationals. -/
theorem two_pow_q_ne_six (n : ℕ) : (2 : ℚ) ^ n ≠ 6 := by
  rcases n with _ | _ | _ | m
  · norm_num
  · norm_num
  · norm_num
  · have h1 : (1 : ℚ) ≤ 2 ^ m := one_le_two_pow_q m
    simp only [pow_succ]
    intro heq
    nlinarith

/-- Closed form of the forward state on the sign-inconsistent stub manifold
`mDiv`, valid wherever `500 + e ≠ 0`: the temperature is `500 + e`, the
reported temperature derivative is the constant `-1`, the pressure is zero,
and no division along the way has a zero divisor. -/
theorem SetTDState_rhoe_mDiv (rho e : ℚ) (he : 500 + e ≠ 0) :
    SetTDState_rhoe mDiv rho e =
      { Density := rho, StaticEnergy := e, Entropy := 0,
        dsde_rho := 1 / (500 + e), dsdrho_e := 0,
        d2sde2 := 1 / (500 + e) ^ 2, d2sdedrho := 0, d2sdrho2 := 0,
        SoundSpeed2 := 0, Temperature := 500 + e, Pressure := 0,
        dTde_rho := -1, dTdrho_e := 0, dPde_rho := 0, dPdrho_e := 0,
        Cp := -1, Cv := -1, Gamma := 1, Gamma_Minus_One := 0,
        Gas_Constant := 0 } := by
  have hD : -(((1 : ℚ) / (500 + e)) ^ 2)⁻¹ * (1 / (500 + e) ^ 2) = -1 := by
    field_simp
  simp only [SetTDState_rhoe, mDiv, hD]
  norm_num [TDState.mk.injEq]

/-- With the sign-inconsistent stub manifold `mDiv`, fixed density `1`,
target temperature `600` and relaxation `1`, each Newton iterate of the
density-temperature loop doubles the temperature residual: starting from
the energy `100 - 100·2ⁿ`, after `fuel` more iterations the energy is
`100 - 100·2^(n+fuel)` and no residual check ever passes. -/
theorem rhoTloop_mDiv_doubles :
    ∀ (fuel n iter : ℕ),
      rhoTloop mDiv 1 600 1 (100 - 100 * 2 ^ n) iter fuel =
        ⟨100 - 100 * 2 ^ (n + fuel), iter + fuel, false⟩ := by
  intro fuel
  induction fuel with
  | zero => intro n iter; rfl
  | succ k ih =>
    intro n iter
    have h1 : (1 : ℚ) ≤ 2 ^ n := one_le_two_pow_q n
    have he : (500 : ℚ) + (100 - 100 * 2 ^ n) ≠ 0 := by
      intro h0
      exact two_pow_q_ne_six n (by linarith)
    rw [rhoTloop_succ, SetTDState_rhoe_mDiv 1 _ he]
    have hcond : ¬(|(500 + (100 - 100 * 2 ^ n) : ℚ) - 600| < 1) := by
      have heq : (500 + (100 - 100 * 2 ^ n) : ℚ) - 600 = -(100 * 2 ^ n) := by
        ring
      rw [heq, abs_neg, abs_of_nonneg (by positivity)]
      intro hlt
      nlinarith
    simp only [if_neg hcond]
    have hupd : (100 - 100 * 2 ^ n : ℚ) -
        1 * ((500 + (100 - 100 * 2 ^ n) - 600) / -1) = 100 - 100 * 2 ^ (n + 1) := by
      rw [pow_succ]
      ring
    rw [hupd, ih (n + 1) (iter + 1)]
    have hexp : n + 1 + k = n + (k + 1) := by omega
    rw [hexp]
    simp [NewtonIter1.mk.injEq]
    omega

/-- Counterexample to C6: on the stub manifold `mDiv` the forward
evaluation at `(ρ, e) = (1, 100)` yields temperature `600`, yet the
density-temperature inversion targeting exactly that temperature (density
`1`, initial energy guess `0`, relaxation `1`) diverges: the reported
`dT/de = -1` has the wrong sign, every under-relaxed Newton step doubles
the residual through 1000 finite, nonzero-divisor iterations, and the
returned state's temperature is `600 - 100·2¹⁰⁰⁰`, missing the target by
`100·2¹⁰⁰⁰` — far outside the tolerance of `1` — so the solver does not
reconverge to `(ρ, e)`. -/
theorem C6_roundtrip_counterexample :
    (SetTDState_rhoe mDiv 1 100).Temperature = 600 ∧
    SetTDState_rhoT mDiv 1 0 1 (SetTDState_rhoe mDiv 1 100).Temperature =
      SetTDState_rhoe mDiv 1 (100 - 100 * 2 ^ (1000 : ℕ)) ∧
    (SetTDState_rhoT mDiv 1 0 1
      (SetTDState_rhoe mDiv 1 100).Temperature).Temperature =
      600 - 100 * 2 ^ (1000 : ℕ) ∧
    ¬(|(SetTDState_rhoT mDiv 1 0 1
        (SetTDState_rhoe mDiv 1 100).Temperature).Temperature -
        (SetTDState_rhoe mDiv 1 100).Temperature| < 1) := by
  have h1 : (1 : ℚ) ≤ 2 ^ (1000 : ℕ) := one_le_two_pow_q 1000
  have hT : (SetTDState_rhoe mDiv 1 100).Temperature = 600 := by
    rw [SetTDState_rhoe_mDiv 1 100 (by norm_num)]
    norm_num
  have he1000 : (500 : ℚ) + (100 - 100 * 2 ^ (1000 : ℕ)) ≠ 0 := by
    intro h0
    exact two_pow_q_ne_six 1000 (by linarith)
  have hloop : rhoTloop mDiv 1 600 1 0 0 1000 =
      ⟨100 - 100 * 2 ^ (1000 : ℕ), 1000, false⟩ := by
    have h := rhoTloop_mDiv_doubles 1000 0 0
    have e0 : (100 - 100 * 2 ^ (0 : ℕ) : ℚ) = 0 := by norm_num
    rw [e0] at h
    simp only [Nat.zero_add] at h
    exact h
  have hsolver : SetTDState_rhoT mDiv 1 0 1 (SetTDState_rhoe mDiv 1 100).Temperature =
      SetTDState_rhoe mDiv 1 (100 - 100 * 2 ^ (1000 : ℕ)) := by
    rw [hT]
    show SetTDState_rhoe mDiv 1 (rhoTloop mDiv 1 600 1 0 0 1000).e = _
    rw [hloop]
  have hTfinal : (SetTDState_rhoT mDiv 1 0 1
      (SetTDState_rhoe mDiv 1 100).Temperature).Temperature =
      600 - 100 * 2 ^ (1000 : ℕ) := by
    rw [hsolver, SetTDState_rhoe_mDiv 1 _ he1000]
    show (500 : ℚ) + (100 - 100 * 2 ^ (1000 : ℕ)) = 600 - 100 * 2 ^ (1000 : ℕ)
    ring
  refine ⟨hT, hsolver, hTfinal, ?_⟩
  rw [hTfinal, hT]
  have heq : (600 : ℚ) - 100 * 2 ^ (1000 : ℕ) - 600 = -(100 * 2 ^ (1000 : ℕ)) := by
    ring
  rw [heq, abs_neg, abs_of_nonneg (by positivity)]
  intro hlt
  nlinarith

/-- C6 (amended): reconvergence of the round-trip is only guaranteed
conditionally — whenever an inversion solver's Newton loop declares
convergence while targeting exactly the values a forward evaluation at
`(ρ, e)` produces for its target pair, the state the solver returns
reproduces those targets within the stated absolute tolerances (10 for
pressure and enthalpy, 1 for temperature and entropy).  Unconditional
reconvergence fails: see the counterexample, where a manifold whose
reported temperature derivative disagrees in sign with the actual
temperature variation makes every under-relaxed Newton step double the
residual, so the loop runs to the iteration cap with the target missed
by far more than the tolerance. -/
theorem C6_roundtrip_amended (m : Manifold) (relax rho0 e0 rho e : ℚ) :
    ((PTloop m relax (SetTDState_rhoe m rho e).Pressure
        (SetTDState_rhoe m rho e).Temperature rho0 e0 0 1000).converged = true →
      |(SetTDState_PT m relax rho0 e0 (SetTDState_rhoe m rho e).Pressure
          (SetTDState_rhoe m rho e).Temperature).Pressure -
        (SetTDState_rhoe m rho e).Pressure| < 10 ∧
      |(SetTDState_PT m relax rho0 e0 (SetTDState_rhoe m rho e).Pressure
          (SetTDState_rhoe m rho e).Temperature).Temperature -
        (SetTDState_rhoe m rho e).Temperature| < 1) ∧
    ((Prholoop m relax (SetTDState_rhoe m rho e).Pressure rho e0 0 1000).converged = true →
      |(SetTDState_Prho m relax e0 (SetTDState_rhoe m rho e).Pressure rho).Pressure -
        (SetTDState_rhoe m rho e).Pressure| < 10) ∧
    ((rhoTloop m relax (SetTDState_rhoe m rho e).Temperature rho e0 0 1000).converged = true →
      |(SetTDState_rhoT m relax e0 rho (SetTDState_rhoe m rho e).Temperature).Temperature -
        (SetTDState_rhoe m rho e).Temperature| < 1) ∧
    ((hsloop m relax
        ((SetTDState_rhoe m rho e).StaticEnergy +
          (SetTDState_rhoe m rho e).Pressure / (SetTDState_rhoe m rho e).Density)
        (SetTDState_rhoe m rho e).Entropy rho0 e0 0 1000).converged = true →
      |(SetTDState_hs m relax rho0 e0
          ((SetTDState_rhoe m rho e).StaticEnergy +
            (SetTDState_rhoe m rho e).Pressure / (SetTDState_rhoe m rho e).Density)
          (SetTDState_rhoe m rho e).Entropy).StaticEnergy +
        (SetTDState_hs m relax rho0 e0
          ((SetTDState_rhoe m rho e).StaticEnergy +
            (SetTDState_rhoe m rho e).Pressure / (SetTDState_rhoe m rho e).Density)
          (SetTDState_rhoe m rho e).Entropy).Pressure /
        (SetTDState_hs m relax rho0 e0
          ((SetTDState_rhoe m rho e).StaticEnergy +
            (SetTDState_rhoe m rho e).Pressure / (SetTDState_rhoe m rho e).Density)
          (SetTDState_rhoe m rho e).Entropy).Density -
        ((SetTDState_rhoe m rho e).StaticEnergy +
          (SetTDState_rhoe m rho e).Pressure / (SetTDState_rhoe m rho e).Density)| < 10 ∧
      |(SetTDState_hs m relax rho0 e0
          ((SetTDState_rhoe m rho e).StaticEnergy +
            (SetTDState_rhoe m rho e).Pressure / (SetTDState_rhoe m rho e).Density)
          (SetTDState_rhoe m rho e).Entropy).Entropy -
        (SetTDState_rhoe m rho e).Entropy| < 1) ∧
    ((Psloop m relax (SetTDState_rhoe m rho e).Pressure
        (SetTDState_rhoe m rho e).Entropy rho0 e0 0 1000).converged = true →
      |(SetTDState_Ps m relax rho0 e0 (SetTDState_rhoe m rho e).Pressure
          (SetTDState_rhoe m rho e).Entropy).Pressure -
        (SetTDState_rhoe m rho e).Pressure| < 10 ∧
      |(SetTDState_Ps m relax rho0 e0 (SetTDState_rhoe m rho e).Pressure
          (SetTDState_rhoe m rho e).Entropy).Entropy -
        (SetTDState_rhoe m rho e).Entropy| < 1) := by
  refine ⟨fun h => ?_, fun h => ?_, fun h => ?_, fun h => ?_, fun h => ?_⟩
  · exact PTloop_conv_residuals m relax _ _ 1000 rho0 e0 0 h
  · exact Prholoop_conv_residuals m relax _ rho 1000 e0 0 h
  · exact rhoTloop_conv_residuals m relax _ rho 1000 e0 0 h
  · exact hsloop_conv_residuals m relax _ _ 1000 rho0 e0 0 h
  · exact Psloop_conv_residuals m relax _ _ 1000 rho0 e0 0 h

/-- Witness for the amended C6: on the stub manifold `mDiv` with the
initial guess `(1, 100)` equal to the forward point, every solver's first
residual check passes (each residual is exactly zero, with no zero divisor
anywhere in the evaluation), so every solver converges in its first
iteration and reproduces its targets within tolerance. -/
theorem C6_roundtrip_amended_witness :
    (|(SetTDState_PT mDiv 1 1 100 0 600).Pressure - 0| < 10 ∧
      |(SetTDState_PT mDiv 1 1 100 0 600).Temperature - 600| < 1) ∧
    |(SetTDState_Prho mDiv 1 100 0 1).Pressure - 0| < 10 ∧
    |(SetTDState_rhoT mDiv 1 100 1 600).Temperature - 600| < 1 ∧
    (|(SetTDState_hs mDiv 1 1 100 100 0).StaticEnergy +
        (SetTDState_hs mDiv 1 1 100 100 0).Pressure /
          (SetTDState_hs mDiv 1 1 100 100 0).Density - 100| < 10 ∧
      |(SetTDState_hs mDiv 1 1 100 100 0).Entropy - 0| < 1) ∧
    (|(SetTDState_Ps mDiv 1 1 100 0 0).Pressure - 0| < 10 ∧
      |(SetTDState_Ps mDiv 1 1 100 0 0).Entropy - 0| < 1) := by
  have e1 : (SetTDState_rhoe mDiv 1 100).Pressure = 0 := by
    rw [SetTDState_rhoe_mDiv 1 100 (by norm_num)]
  have e2 : (SetTDState_rhoe mDiv 1 100).Temperature = 600 := by
    rw [SetTDState_rhoe_mDiv 1 100 (by norm_num)]
    norm_num
  have e3 : (SetTDState_rhoe mDiv 1 100).Entropy = 0 := by
    rw [SetTDState_rhoe_mDiv 1 100 (by norm_num)]
  have e4 : (SetTDState_rhoe mDiv 1 100).StaticEnergy +
      (SetTDState_rhoe mDiv 1 100).Pressure / (SetTDState_rhoe mDiv 1 100).Density = 100 := by
    rw [SetTDState_rhoe_mDiv 1 100 (by norm_num)]
    norm_num
  have hPT : (PTloop mDiv 1 (SetTDState_rhoe mDiv 1 100).Pressure
      (SetTDState_rhoe mDiv 1 100).Temperature 1 100 0 1000).converged = true := by
    rw [e1, e2, show (1000 : ℕ) = 999 + 1 from rfl, PTloop_succ,
      SetTDState_rhoe_mDiv 1 100 (by norm_num)]
    norm_num
  have hPrho : (Prholoop mDiv 1 (SetTDState_rhoe mDiv 1 100).Pressure 1 100 0 1000).converged = true := by
    rw [e1, show (1000 : ℕ) = 999 + 1 from rfl, Prholoop_succ,
      SetTDState_rhoe_mDiv 1 100 (by norm_num)]
    norm_num
  have hrhoT : (rhoTloop mDiv 1 (SetTDState_rhoe mDiv 1 100).Temperature 1 100 0 1000).converged = true := by
    rw [e2, show (1000 : ℕ) = 999 + 1 from rfl, rhoTloop_succ,
      SetTDState_rhoe_mDiv 1 100 (by norm_num)]
    norm_num
  have hhs : (hsloop mDiv 1
      ((SetTDState_rhoe mDiv 1 100).StaticEnergy +
        (SetTDState_rhoe mDiv 1 100).Pressure / (SetTDState_rhoe mDiv 1 100).Density)
      (SetTDState_rhoe mDiv 1 100).Entropy 1 100 0 1000).converged = true := by
    rw [e4, e3, show (1000 : ℕ) = 999 + 1 from rfl, hsloop_succ,
      SetTDState_rhoe_mDiv 1 100 (by norm_num)]
    norm_num
  have hPs : (Psloop mDiv 1 (SetTDState_rhoe mDiv 1 100).Pressure
      (SetTDState_rhoe mDiv 1 100).Entropy 1 100 0 1000).converged = true := by
    rw [e1, e3, show (1000 : ℕ) = 999 + 1 from rfl, Psloop_succ,
      SetTDState_rhoe_mDiv 1 100 (by norm_num)]
    norm_num
  have hmain := C6_roundtrip_amended mDiv 1 1 100 1 100
  have c1 := hmain.1 hPT
  have c2 := hmain.2.1 hPrho
  have c3 := hmain.2.2.1 hrhoT
  have c4 := hmain.2.2.2.1 hhs
  have c5 := hmain.2.2.2.2 hPs
  rw [e1, e2] at c1
  rw [e1] at c2
  rw [e2] at c3
  rw [e4, e3] at c4
  rw [e1, e3] at c5
  exact ⟨c1, c2, c3, c4, c5⟩

/-- Counterexample to C7: construction does NOT succeed for both recognized
backend kinds — the tabulated-dataset kind (`LUT`), though a recognized
enum value, hits the construction-time guard and aborts with the fatal
configuration error. -/
theorem C7_backend_counterexample :
    CDataDrivenFluid_construct
      { Kind_DataDriven_Method := ENUM_DATADRIVEN_METHOD.LUT
        DataDriven_Filename := "table"
        Relaxation_DataDriven := 1
        Density_Init_DataDriven := 1
        Energy_Init_DataDriven := 1 } =
      Except.error
        "Only multi-layer perceptrons are currently accepted for data-driven fluid models." := rfl

/-- C7 (amended): construction of the data-driven fluid model succeeds
exactly for the trained-function-approximator kind (`MLP`) and aborts with
a fatal configuration error for every other configured backend kind,
including the recognized tabulated-dataset kind (`LUT`): this branch of
the code supports only multilayer perceptrons. -/
theorem C7_backend_amended (config : DataDrivenConfig) :
    (config.Kind_DataDriven_Method = ENUM_DATADRIVEN_METHOD.MLP ∧
      CDataDrivenFluid_construct config = Except.ok
        { Kind_DataDriven_Method := config.Kind_DataDriven_Method
          input_filename := config.DataDriven_Filename
          Newton_Relaxation := config.Relaxation_DataDriven
          rho_start := config.Density_Init_DataDriven
          e_start := config.Energy_Init_DataDriven }) ∨
    (config.Kind_DataDriven_Method ≠ ENUM_DATADRIVEN_METHOD.MLP ∧
      CDataDrivenFluid_construct config = Except.error
        "Only multi-layer perceptrons are currently accepted for data-driven fluid models.") := by
  cases hk : config.Kind_DataDriven_Method with
  | MLP =>
    left
    refine ⟨rfl, ?_⟩
    simp [CDataDrivenFluid_construct, hk]
  | LUT =>
    right
    refine ⟨by decide, ?_⟩
    simp [CDataDrivenFluid_construct, hk]

/-- C8: within one flamelet forward evaluation (fixed input scalar vector),
every output-group query raises the extrapolation flag exactly when the
control-variable point lies outside the manifold's domain; consecutive
queries therefore return identical flags, the member flag after the pass
equals the disjunction of all query flags (aggregation), and a later
in-domain query never drops an earlier out-of-domain signal.  An outside
point yields `true`, an interior point `false`. -/
theorem C8_extrapolation_flag_aggregation (f : CFluidFlamelet) (input : List ℚ)
    (ty1 ty2 : FLAMELET_LOOKUP_OPS) (refs1 refs2 : List ℚ)
    (f1 f2 : CFluidFlamelet) (out1 out2 : List ℚ) (ex1 ex2 : Bool)
    (h1 : EvaluateDataSet f input ty1 refs1 = Except.ok (f1, out1, ex1))
    (h2 : EvaluateDataSet f1 input ty2 refs2 = Except.ok (f2, out2, ex2)) :
    ex1 = (if f.include_mixture_fraction = true then
        !f.look_up_table.inDomainXYZ (input.getD I_PROGVAR 0) (input.getD I_ENTH 0)
          (input.getD I_MIXFRAC 0)
      else !f.look_up_table.inDomainXY (input.getD I_PROGVAR 0) (input.getD I_ENTH 0)) ∧
    ex2 = ex1 ∧ f1.extrapolation = ex1 ∧ f2.extrapolation = (ex1 || ex2) := by
  simp only [EvaluateDataSet] at h1
  split at h1
  · exact absurd h1 (by simp)
  · simp only [Except.ok.injEq, Prod.mk.injEq] at h1
    obtain ⟨hf1, hout1, hex1⟩ := h1
    subst hf1
    simp only [EvaluateDataSet] at h2
    split at h2
    · exact absurd h2 (by simp)
    · simp only [Except.ok.injEq, Prod.mk.injEq] at h2
      obtain ⟨hf2, hout2, hex2⟩ := h2
      subst hf2
      cases hb : f.include_mixture_fraction with
      | true =>
        simp only [hb, LookUp_XYZ, if_true] at hex1 hex2 ⊢
        subst hex1
        subst hex2
        simp
      | false =>
        simp only [hb, LookUp_XY, if_false, Bool.false_eq_true] at hex1 hex2 ⊢
        subst hex1
        subst hex2
        simp

/-- Witness for C8: on the fixture model `fA` at the out-of-domain point
`(5, 7)`, a thermodynamic-group query followed by a source-term-group query
in the same evaluation pass raise the same extrapolation flag, and the
member flag after the pass aggregates both. -/
theorem C8_extrapolation_flag_aggregation_witness :
    c8r1.2.2 = (if fA.include_mixture_fraction = true then
        !fA.look_up_table.inDomainXYZ (([5, 7] : List ℚ).getD I_PROGVAR 0)
          (([5, 7] : List ℚ).getD I_ENTH 0) (([5, 7] : List ℚ).getD I_MIXFRAC 0)
      else !fA.look_up_table.inDomainXY (([5, 7] : List ℚ).getD I_PROGVAR 0)
        (([5, 7] : List ℚ).getD I_ENTH 0)) ∧
    c8r2.2.2 = c8r1.2.2 ∧ c8r1.1.extrapolation = c8r1.2.2 ∧
    c8r2.1.extrapolation = (c8r1.2.2 || c8r2.2.2) :=
  C8_extrapolation_flag_aggregation fA [5, 7] FLAMELET_LOOKUP_OPS.TD
    FLAMELET_LOOKUP_OPS.SOURCES fA.val_vars_TD c8r1.1.val_vars_Sources
    c8r1.1 c8r2.1 c8r1.2.1 c8r2.2.1 c8r1.2.2 c8r2.2.2 (by rfl) (by rfl)

/-- C9: whenever `SetTDState_T` succeeds, the density of the resulting
state equals `P_operating / (M · R_universal · T)` and `Cv = Cp -
R_universal / M`, where the operating pressure is the one fixed at
construction (the `Pressure` member) and temperature, heat capacity and
molar weight are exactly the values returned by the manifold lookup of the
thermodynamic output group at the control-variable point. -/
theorem C9_ideal_gas_closure (f : CFluidFlamelet) (t : ℚ) (scalars : List ℚ)
    (f' : CFluidFlamelet)
    (hok : SetTDState_T f t scalars = Except.ok f') :
    f'.Density = f.Pressure / (f'.molar_weight * UNIVERSAL_GAS_CONSTANT * f'.Temperature) ∧
    f'.Cv = f'.Cp - UNIVERSAL_GAS_CONSTANT / f'.molar_weight ∧
    f'.Pressure = f.Pressure ∧
    f'.Temperature = f'.val_vars_TD.getD LOOKUP_TD.TEMPERATURE 0 ∧
    f'.Cp = f'.val_vars_TD.getD LOOKUP_TD.HEATCAPACITY 0 ∧
    f'.molar_weight = f'.val_vars_TD.getD LOOKUP_TD.MOLARWEIGHT 0 ∧
    f'.val_vars_TD =
      (if f.include_mixture_fraction = true then
        LookUp_XYZ f.look_up_table f.varnames_TD
          (((List.range f.n_scalars).map (fun i => scalars.getD i 0)).getD I_PROGVAR 0)
          (((List.range f.n_scalars).map (fun i => scalars.getD i 0)).getD I_ENTH 0)
          (((List.range f.n_scalars).map (fun i => scalars.getD i 0)).getD I_MIXFRAC 0)
      else
        LookUp_XY f.look_up_table f.varnames_TD
          (((List.range f.n_scalars).map (fun i => scalars.getD i 0)).getD I_PROGVAR 0)
          (((List.range f.n_scalars).map (fun i => scalars.getD i 0)).getD I_ENTH 0)).1 := by
  simp only [SetTDState_T] at hok
  split at hok
  · exact absurd hok (by simp)
  · rename_i f2 vals ex heq
    simp only [Except.ok.injEq] at hok
    subst hok
    simp only [EvaluateDataSet] at heq
    split at heq
    · exact absurd heq (by simp)
    · simp only [Except.ok.injEq, Prod.mk.injEq] at heq
      obtain ⟨hf2, hvals, hex⟩ := heq
      subst hf2
      subst hvals
      cases hb : f.include_mixture_fraction with
      | true => simp [hb]
      | false => simp [hb]

/-- Witness for C9: the fixture call succeeds and its resulting state
satisfies the ideal-gas closure with the lookup-returned values. -/
theorem C9_ideal_gas_closure_witness :
    c9res.Density = fA.Pressure /
      (c9res.molar_weight * UNIVERSAL_GAS_CONSTANT * c9res.Temperature) ∧
    c9res.Cv = c9res.Cp - UNIVERSAL_GAS_CONSTANT / c9res.molar_weight ∧
    c9res.Pressure = fA.Pressure ∧
    c9res.Temperature = c9res.val_vars_TD.getD LOOKUP_TD.TEMPERATURE 0 ∧
    c9res.Cp = c9res.val_vars_TD.getD LOOKUP_TD.HEATCAPACITY 0 ∧
    c9res.molar_weight = c9res.val_vars_TD.getD LOOKUP_TD.MOLARWEIGHT 0 ∧
    c9res.val_vars_TD =
      (if fA.include_mixture_fraction = true then
        LookUp_XYZ fA.look_up_table fA.varnames_TD
          (((List.range fA.n_scalars).map
            (fun i => ([1 / 2, 1 / 4] : List ℚ).getD i 0)).getD I_PROGVAR 0)
          (((List.range fA.n_scalars).map
            (fun i => ([1 / 2, 1 / 4] : List ℚ).getD i 0)).getD I_ENTH 0)
          (((List.range fA.n_scalars).map
            (fun i => ([1 / 2, 1 / 4] : List ℚ).getD i 0)).getD I_MIXFRAC 0)
      else
        LookUp_XY fA.look_up_table fA.varnames_TD
          (((List.range fA.n_scalars).map
            (fun i => ([1 / 2, 1 / 4] : List ℚ).getD i 0)).getD I_PROGVAR 0)
          (((List.range fA.n_scalars).map
            (fun i => ([1 / 2, 1 / 4] : List ℚ).getD i 0)).getD I_ENTH 0)).1 :=
  C9_ideal_gas_closure fA 0 [1 / 2, 1 / 4] c9res (by rfl)

/-- C10: for every lookup group, `EvaluateDataSet` depends on its input
scalar vector only through the progress-variable and enthalpy entries (and
the mixture-fraction entry when three control variables are configured):
two inputs agreeing there produce identical results — same values, same
extrapolation flag, same updated state — whatever the user-scalar entries
hold.  Likewise `SetTDState_T` does not depend on its `val_temperature`
argument. -/
theorem C10_control_variable_noninterference (f : CFluidFlamelet)
    (ty : FLAMELET_LOOKUP_OPS) (refs : List ℚ) (in1 in2 : List ℚ)
    (t1 t2 : ℚ) (scalars : List ℚ)
    (hprog : in1.getD I_PROGVAR 0 = in2.getD I_PROGVAR 0)
    (henth : in1.getD I_ENTH 0 = in2.getD I_ENTH 0)
    (hmix : f.include_mixture_fraction = true →
      in1.getD I_MIXFRAC 0 = in2.getD I_MIXFRAC 0) :
    EvaluateDataSet f in1 ty refs = EvaluateDataSet f in2 ty refs ∧
    SetTDState_T f t1 scalars = SetTDState_T f t2 scalars := by
  constructor
  · simp only [EvaluateDataSet]
    rw [hprog, henth]
    cases hb : f.include_mixture_fraction with
    | true => rw [hmix hb]
    | false => rfl
  · rfl

/-- Witness for C10: on the fixture model `fA`, two input vectors agreeing
on the first three entries but differing in a user-scalar entry give
identical lookups, and two different unused temperature arguments give
identical states. -/
theorem C10_control_variable_noninterference_witness :
    EvaluateDataSet fA [1, 2, 0, 9] FLAMELET_LOOKUP_OPS.TD fA.val_vars_TD =
      EvaluateDataSet fA [1, 2, 0, 4] FLAMELET_LOOKUP_OPS.TD fA.val_vars_TD ∧
    SetTDState_T fA 3 [1, 2] = SetTDState_T fA 7 [1, 2] :=
  C10_control_variable_noninterference fA FLAMELET_LOOKUP_OPS.TD fA.val_vars_TD
    [1, 2, 0, 9] [1, 2, 0, 4] 3 7 [1, 2] (by rfl) (by rfl) (fun _ => by rfl)
